import Mathlib

/-!
Verification of the Gemini UI script `apitest.py`.

The script is single-threaded and synchronous; every network call is a
single blocking round trip.  We embed the pure decision logic of the
script shallowly: the results of the external library calls
(`requests.post`, `response.json()`, `json.loads`, the storage SDK) are
inputs to the Lean functions, and the functions compute exactly what the
Python code computes from those inputs.
-/

/-- A JSON value as produced by Python's `json` module: numbers become a
single numeric type (modelled as rationals, which cover every decimal
literal the script manipulates), objects become dicts with string keys
(unique after parsing, looked up by equality), arrays become lists. -/
inductive Json where
  | null : Json
  | bool (b : Bool) : Json
  | num (q : Rat) : Json
  | str (s : String) : Json
  | arr (items : List Json) : Json
  | obj (fields : List (String × Json)) : Json
deriving Repr

/-- Python `d.get(key, default)`.  Succeeds only on a dict; on any other
value Python raises `AttributeError`, which the caller's `try` swallows,
so we return `none` for the raised case. -/
def dict_get (j : Json) (key : String) (default : Json) : Option Json :=
  match j with
  | Json.obj fields => some ((List.lookup key fields).getD default)
  | _ => none

/-- Python `x[0]` as used in the extraction chain.  On a non-empty list it
yields the head; on an empty list Python raises `IndexError`, and on a
non-list value the chain also ends in a caught exception (directly via
`TypeError`/`KeyError`, or for a non-empty string one step later when
`.get` is called on the character), so every non-head case is `none`. -/
def index0 (j : Json) : Option Json :=
  match j with
  | Json.arr (x :: _) => some x
  | _ => none

/-- The extraction chain of `generate_content` (apitest.py line 35):
`response_json.get('candidates', [Json.obj []])[0].get('content', ...)
.get('parts', ...)[0].get('text', 'No response generated')`, with the
source's literal defaults at every level.  `none` means the Python chain
raised (the surrounding `try` then returns the raw body). -/
def extract_response_text (j : Json) : Option Json :=
  (dict_get j "candidates" (Json.arr [Json.obj []])).bind fun cands =>
  (index0 cands).bind fun cand0 =>
  (dict_get cand0 "content" (Json.obj [])).bind fun content =>
  (dict_get content "parts" (Json.arr [Json.obj []])).bind fun parts =>
  (index0 parts).bind fun part0 =>
  dict_get part0 "text" (Json.str "No response generated")

/-- The observable outcome of the POST performed by `generate_content`:
the status code, the raw body (`response.text`), and the result of the
external call `response.json()` — `some j` when the library parses the
body to `j`, `none` when it raises (body not parseable as JSON). -/
structure HttpResponse where
  status_code : Nat
  text : String
  jsonBody : Option Json
deriving Repr

/-- `GeminiApiClient.generate_content` after `requests.post` has returned
`resp` (apitest.py lines 29-38): non-200 raises an `Exception` whose
message interpolates the status code and the raw body; on 200 the code
tries `response.json()` and the extraction chain, and any exception in
that `try` block is caught and the raw body is returned as a string. -/
def generate_content_result (resp : HttpResponse) : Except String Json :=
  if resp.status_code ≠ 200 then
    Except.error ("API request failed with status " ++ toString resp.status_code
      ++ ": " ++ resp.text)
  else
    match resp.jsonBody with
    | none => Except.ok (Json.str resp.text)
    | some j =>
      match extract_response_text j with
      | some v => Except.ok v
      | none => Except.ok (Json.str resp.text)

/-- The body contains the full key path `candidates[0].content.parts[0].text`
with a string at the end: each traversed container is an object and the two
indexed arrays are non-empty with object heads. -/
def hasTextPath (j : Json) (s : String) : Prop :=
  ∃ fs c0f rest ctf p0f prest,
    j = Json.obj fs ∧
    List.lookup "candidates" fs = some (Json.arr (Json.obj c0f :: rest)) ∧
    List.lookup "content" c0f = some (Json.obj ctf) ∧
    List.lookup "parts" ctf = some (Json.arr (Json.obj p0f :: prest)) ∧
    List.lookup "text" p0f = some (Json.str s)

/-- The traversal along `candidates[0].content.parts[0].text` meets only
values of the expected shape until some dict key on the path is absent
(so a `.get` default is used). -/
def missesKeyOnPath (j : Json) : Prop :=
  ∃ fs, j = Json.obj fs ∧
    (List.lookup "candidates" fs = none ∨
      ∃ c0f rest, List.lookup "candidates" fs = some (Json.arr (Json.obj c0f :: rest)) ∧
        (List.lookup "content" c0f = none ∨
          ∃ ctf, List.lookup "content" c0f = some (Json.obj ctf) ∧
            (List.lookup "parts" ctf = none ∨
              ∃ p0f prest, List.lookup "parts" ctf = some (Json.arr (Json.obj p0f :: prest)) ∧
                List.lookup "text" p0f = none)))

/-- The quiz-parsing step of the Quiz Generator branch (apitest.py lines
150-154): `quiz = json.loads(quiz_data).get("questions", [])` inside a
`try` whose `except` reports the parse error and sets `quiz = []`.
The argument models the external `json.loads` call on the response text:
`some j` when it parses to `j`, `none` when it raises (invalid JSON).
The result is the `quiz` value together with a flag recording whether the
`except` branch reported a parse error.  A parsed value that is not a
dict makes the chained `.get` raise, which the same `except` catches. -/
def parse_quiz_response (loads : Option Json) : Json × Bool :=
  match loads with
  | none => (Json.arr [], true)
  | some (Json.obj fs) => ((List.lookup "questions" fs).getD (Json.arr []), false)
  | some _ => (Json.arr [], true)

/-- `upload_to_bucket` (apitest.py lines 40-52).  The credential load,
client construction and blob upload are external SDK calls inside one
`try`; `storageOutcome` models their combined outcome: `none` when every
call succeeds, `some m` when some call raises an exception whose string
form is `m`.  On success the function returns the canonical URI built
from the bucket and file names; on failure the `except` re-raises a
single `Exception` wrapping the original message. -/
def upload_to_bucket (bucket_name file_name : String)
    (storageOutcome : Option String) : Except String String :=
  match storageOutcome with
  | none => Except.ok ("gs://" ++ bucket_name ++ "/" ++ file_name)
  | some m => Except.error ("Error uploading to bucket: " ++ m)

/-- The fields of `GeminiApiClient` relevant to request construction:
`__init__` stores the ids and precomputes `api_endpoint` from the
location id; the credential object is reduced to its token string. -/
structure GeminiApiClient where
  project_id : String
  location_id : String
  api_endpoint : String
  token : String

/-- `GeminiApiClient.__init__` (apitest.py lines 14-18). -/
def GeminiApiClient.make (project_id location_id token : String) : GeminiApiClient :=
  { project_id := project_id, location_id := location_id,
    api_endpoint := "https://" ++ location_id ++ "-aiplatform.googleapis.com",
    token := token }

/-- The URL `generate_content` POSTs to (apitest.py line 22). -/
def GeminiApiClient.request_url (c : GeminiApiClient) (model_id : String) : String :=
  c.api_endpoint ++ "/v1/projects/" ++ c.project_id ++ "/locations/" ++ c.location_id
    ++ "/publishers/google/models/" ++ model_id ++ ":generateContent"

/-- The value of the Authorization header sent by `generate_content`
(apitest.py line 26). -/
def GeminiApiClient.auth_header (c : GeminiApiClient) : String :=
  "Bearer " ++ c.token

/-- One part of a generation request: either a text part or a fileData
part with a mime type and a file URI (spec section 3). -/
inductive GenPart where
  | text (s : String) : GenPart
  | fileData (mimeType fileUri : String) : GenPart
deriving Repr

/-- One entry of `contents`: a role and its parts. -/
structure Content where
  role : String
  parts : List GenPart
deriving Repr

/-- A generation request: `contents` plus an optional `generationConfig`
kept as the literal JSON value from the source. -/
structure GenerationRequest where
  contents : List Content
  generationConfig : Option Json
deriving Repr

/-- The `generationConfig` literal of the Quiz Generator branch
(apitest.py lines 122-144), including the response schema. -/
def quiz_generation_config : Json :=
  Json.obj [
    ("temperature", Json.num 1),
    ("maxOutputTokens", Json.num 8192),
    ("topP", Json.num 0.95),
    ("responseMimeType", Json.str "application/json"),
    ("responseSchema", Json.obj [
      ("type", Json.str "OBJECT"),
      ("properties", Json.obj [
        ("questions", Json.obj [
          ("type", Json.str "ARRAY"),
          ("items", Json.obj [
            ("type", Json.str "OBJECT"),
            ("properties", Json.obj [
              ("question", Json.obj [("type", Json.str "STRING")]),
              ("options", Json.obj [
                ("type", Json.str "ARRAY"),
                ("items", Json.obj [("type", Json.str "STRING")])]),
              ("correctAnswer", Json.obj [("type", Json.str "STRING")]),
              ("explanation", Json.obj [("type", Json.str "STRING")])])])])])])]

/-- The Basic Tutor request payload (apitest.py line 92). -/
def basic_tutor_request (query : String) : GenerationRequest :=
  { contents := [{ role := "user", parts := [GenPart.text query] }],
    generationConfig := none }

/-- The quiz prompt template (apitest.py line 118). -/
def quiz_prompt (subject topic difficulty : String) : String :=
  "Generate a quiz with 5 multiple-choice questions on " ++ subject
    ++ ", focusing on " ++ topic ++ " at " ++ difficulty
    ++ " level. Include options, the correct answer, and an explanation."

/-- The Quiz Generator request payload (apitest.py lines 120-145). -/
def quiz_request (subject topic difficulty : String) : GenerationRequest :=
  { contents := [{ role := "user",
                   parts := [GenPart.text (quiz_prompt subject topic difficulty)] }],
    generationConfig := some quiz_generation_config }

/-- The Image Analysis request payload (apitest.py lines 198-208): the
text query plus a fileData part referencing the uploaded image. -/
def image_analysis_request (query mimeType fileUri : String) : GenerationRequest :=
  { contents := [{ role := "user",
                   parts := [GenPart.text query, GenPart.fileData mimeType fileUri] }],
    generationConfig := none }

/-- C1: for every HTTP 200 response whose body is well-formed JSON
containing the full key path `candidates[0].content.parts[0].text`,
`generate_content` returns exactly the string stored at the nested
`text` key. -/
theorem c1_full_path_returns_text (resp : HttpResponse) (j : Json) (s : String)
    (h200 : resp.status_code = 200) (hj : resp.jsonBody = some j)
    (hpath : hasTextPath j s) :
    generate_content_result resp = Except.ok (Json.str s) := by
  obtain ⟨fs, c0f, rest, ctf, p0f, prest, hobj, hc, hct, hp, ht⟩ := hpath
  subst hobj
  simp [generate_content_result, h200, hj, extract_response_text,
    dict_get, index0, hc, hct, hp, ht]

/-- C1 witness: the spec's example body, with text value 42, at status
200 returns exactly 42. -/
theorem c1_full_path_returns_text_witness :
    generate_content_result
      ⟨200, "rawbody",
        some (Json.obj [("candidates", Json.arr [Json.obj [("content",
          Json.obj [("parts", Json.arr [Json.obj [("text", Json.str "42")]])])]])])⟩
      = Except.ok (Json.str "42") :=
  c1_full_path_returns_text _ _ "42" rfl rfl
    ⟨[("candidates", Json.arr [Json.obj [("content",
        Json.obj [("parts", Json.arr [Json.obj [("text", Json.str "42")]])])]])],
      [("content", Json.obj [("parts", Json.arr [Json.obj [("text", Json.str "42")]])])],
      [], [("parts", Json.arr [Json.obj [("text", Json.str "42")]])],
      [("text", Json.str "42")], [],
      rfl, by simp, by simp, by simp, by simp⟩

/-- C2 (amended): for every HTTP 200 response whose well-formed JSON body
has the expected object/array shape along the extraction path but is
missing one or more dict keys on it, `generate_content` returns the
fallback string without raising. -/
theorem c2_missing_key_returns_fallback (resp : HttpResponse) (j : Json)
    (h200 : resp.status_code = 200) (hj : resp.jsonBody = some j)
    (hmiss : missesKeyOnPath j) :
    generate_content_result resp = Except.ok (Json.str "No response generated") := by
  obtain ⟨fs, hobj, hcase⟩ := hmiss
  subst hobj
  rcases hcase with hc | ⟨c0f, rest, hc, hcase⟩
  · simp [generate_content_result, h200, hj, extract_response_text, dict_get, index0, hc]
  · rcases hcase with hct | ⟨ctf, hct, hcase⟩
    · simp [generate_content_result, h200, hj, extract_response_text, dict_get, index0, hc, hct]
    · rcases hcase with hp | ⟨p0f, prest, hp, ht⟩
      · simp [generate_content_result, h200, hj, extract_response_text, dict_get, index0,
          hc, hct, hp]
      · simp [generate_content_result, h200, hj, extract_response_text, dict_get, index0,
          hc, hct, hp, ht]

/-- C2 witness: the spec's example — the empty-object body at status 200
yields the fallback string. -/
theorem c2_missing_key_returns_fallback_witness :
    generate_content_result ⟨200, "rawbody", some (Json.obj [])⟩
      = Except.ok (Json.str "No response generated") :=
  c2_missing_key_returns_fallback _ (Json.obj []) rfl rfl ⟨[], rfl, Or.inl (by simp)⟩

/-- C2 counterexample: the 200 response whose well-formed JSON body is
the object mapping candidates to the one-element array holding the object
mapping content to the number 5.  The keys parts and text of the path are
absent from this body (there is no full text path), yet the adapter
returns the raw body RAW, not the fallback string: in the source the
chained call reaches a value without a get method, the resulting
exception is caught, and the raw body is returned. -/
theorem c2_missing_key_counterexample :
    (⟨200, "RAW", some (Json.obj [("candidates",
        Json.arr [Json.obj [("content", Json.num 5)]])])⟩ : HttpResponse).status_code = 200 ∧
    (¬ ∃ s, hasTextPath (Json.obj [("candidates",
        Json.arr [Json.obj [("content", Json.num 5)]])]) s) ∧
    generate_content_result ⟨200, "RAW", some (Json.obj [("candidates",
        Json.arr [Json.obj [("content", Json.num 5)]])])⟩ = Except.ok (Json.str "RAW") ∧
    generate_content_result ⟨200, "RAW", some (Json.obj [("candidates",
        Json.arr [Json.obj [("content", Json.num 5)]])])⟩
      ≠ Except.ok (Json.str "No response generated") := by
  refine ⟨rfl, ?_, by simp [generate_content_result, extract_response_text, dict_get, index0], ?_⟩
  · rintro ⟨s, fs, c0f, rest, ctf, p0f, prest, hobj, hc, hct, hp, ht⟩
    rw [Json.obj.injEq] at hobj
    subst hobj
    simp [List.lookup] at hc
    obtain ⟨hc0, hrest⟩ := hc
    subst hc0
    simp [List.lookup] at hct
  · simp [generate_content_result, extract_response_text, dict_get, index0]

/-- C3: for every HTTP response with a status code other than 200,
`generate_content` raises an error whose message contains both the status
code and the raw response body verbatim, and no value is returned. -/
theorem c3_non_200_raises (resp : HttpResponse) (h : resp.status_code ≠ 200) :
    ∃ msg, generate_content_result resp = Except.error msg ∧
      (∃ a b, msg = a ++ toString resp.status_code ++ b) ∧
      (∃ a b, msg = a ++ resp.text ++ b) ∧
      ∀ v, generate_content_result resp ≠ Except.ok v := by
  refine ⟨"API request failed with status " ++ toString resp.status_code
      ++ ": " ++ resp.text, ?_, ?_, ?_, ?_⟩
  · simp [generate_content_result, h]
  · exact ⟨"API request failed with status ", ": " ++ resp.text, by
      simp [String.append_assoc]⟩
  · exact ⟨"API request failed with status " ++ toString resp.status_code ++ ": ", "", by
      simp [String.append_assoc]⟩
  · intro v
    simp [generate_content_result, h]

/-- C3 witness: a 404 response with body oops raises and returns no value. -/
theorem c3_non_200_raises_witness :
    ∃ msg, generate_content_result ⟨404, "oops", none⟩ = Except.error msg ∧
      (∃ a b, msg = a ++ toString (404 : Nat) ++ b) ∧
      (∃ a b, msg = a ++ "oops" ++ b) ∧
      ∀ v, generate_content_result ⟨404, "oops", none⟩ ≠ Except.ok v :=
  c3_non_200_raises ⟨404, "oops", none⟩ (by decide)

/-- C4: for every HTTP 200 response whose body is not parseable as JSON
(the external JSON parse raises), `generate_content` returns the raw
response body as a string rather than raising. -/
theorem c4_unparseable_returns_raw_body (resp : HttpResponse)
    (h200 : resp.status_code = 200) (hjson : resp.jsonBody = none) :
    generate_content_result resp = Except.ok (Json.str resp.text) := by
  simp [generate_content_result, h200, hjson]

/-- C4 witness: a 200 response with unparseable body notjson is returned
verbatim as a string. -/
theorem c4_unparseable_returns_raw_body_witness :
    generate_content_result ⟨200, "notjson", none⟩ = Except.ok (Json.str "notjson") :=
  c4_unparseable_returns_raw_body ⟨200, "notjson", none⟩ rfl rfl

/-- C5: if the quiz-mode response text is valid JSON containing a
questions array of N items, quiz parsing yields exactly those N items in
the original order with no parse error; if the text is not valid JSON,
quiz parsing yields an empty list and a parse error is reported. -/
theorem c5_quiz_parsing (loads : Option Json) :
    (∀ fs qs, loads = some (Json.obj fs) →
      List.lookup "questions" fs = some (Json.arr qs) →
      parse_quiz_response loads = (Json.arr qs, false)) ∧
    (loads = none → parse_quiz_response loads = (Json.arr [], true)) := by
  constructor
  · intro fs qs hfs hq
    subst hfs
    simp [parse_quiz_response, hq]
  · intro h
    subst h
    rfl

/-- C5 witness: a body whose questions array holds the two strings a and
b parses to exactly that two-element array, in order, with no error. -/
theorem c5_quiz_parsing_witness :
    parse_quiz_response
      (some (Json.obj [("questions", Json.arr [Json.str "a", Json.str "b"])]))
      = (Json.arr [Json.str "a", Json.str "b"], false) :=
  (c5_quiz_parsing _).1 [("questions", Json.arr [Json.str "a", Json.str "b"])]
    [Json.str "a", Json.str "b"] rfl (by simp)

/-- C6: `upload_to_bucket` on success returns the canonical URI built as
gs colon-slash-slash bucket slash file, and on any underlying storage or
credential error raises exactly one wrapped error whose message carries
the original error's message. -/
theorem c6_upload_contract (bucket_name file_name : String) :
    upload_to_bucket bucket_name file_name none
      = Except.ok ("gs://" ++ bucket_name ++ "/" ++ file_name) ∧
    ∀ m, ∃ pre, upload_to_bucket bucket_name file_name (some m)
      = Except.error (pre ++ m) := by
  exact ⟨rfl, fun m => ⟨"Error uploading to bucket: ", rfl⟩⟩

/-- C7: the endpoint URL is built from exactly the project, location and
model ids according to the documented template, and the Authorization
header carries the bearer token. -/
theorem c7_endpoint_url (project_id location_id model_id token : String) :
    (GeminiApiClient.make project_id location_id token).request_url model_id
      = "https://" ++ location_id ++ "-aiplatform.googleapis.com/v1/projects/"
        ++ project_id ++ "/locations/" ++ location_id
        ++ "/publishers/google/models/" ++ model_id ++ ":generateContent" ∧
    (GeminiApiClient.make project_id location_id token).auth_header
      = "Bearer " ++ token := by
  constructor
  · simp [GeminiApiClient.make, GeminiApiClient.request_url, String.append_assoc]
  · rfl

/-- C8: every request produced by the three payload-construction branches
has at least one part in each content entry. -/
theorem c8_parts_nonempty (query subject topic difficulty iquery mimeType fileUri : String) :
    (∀ c ∈ (basic_tutor_request query).contents, c.parts ≠ []) ∧
    (∀ c ∈ (quiz_request subject topic difficulty).contents, c.parts ≠ []) ∧
    (∀ c ∈ (image_analysis_request iquery mimeType fileUri).contents, c.parts ≠ []) := by
  refine ⟨?_, ?_, ?_⟩ <;>
    · intro c hc
      simp [basic_tutor_request, quiz_request, image_analysis_request] at hc
      subst hc
      simp

/-- C8 witness: the Basic Tutor payload for the question hi has a single
content entry whose parts list is non-empty. -/
theorem c8_parts_nonempty_witness :
    ({ role := "user", parts := [GenPart.text "hi"] } : Content)
        ∈ (basic_tutor_request "hi").contents ∧
    ({ role := "user", parts := [GenPart.text "hi"] } : Content).parts ≠ [] :=
  ⟨by simp [basic_tutor_request],
    (c8_parts_nonempty "hi" "s" "t" "d" "q" "m" "f").1 _ (by simp [basic_tutor_request])⟩

/-- C9: for every HTTP 200 response whose JSON body has candidates
present but equal to an empty list, or has candidates[0].content.parts
present but equal to an empty list, `generate_content` returns the raw
response body as a string — only equal to the fallback string if the raw
body happens to be that string — and does not raise. -/
theorem c9_empty_list_returns_raw_body (resp : HttpResponse) (fs : List (String × Json))
    (h200 : resp.status_code = 200) (hj : resp.jsonBody = some (Json.obj fs))
    (hcase : List.lookup "candidates" fs = some (Json.arr []) ∨
      ∃ c0f rest ctf, List.lookup "candidates" fs = some (Json.arr (Json.obj c0f :: rest)) ∧
        List.lookup "content" c0f = some (Json.obj ctf) ∧
        List.lookup "parts" ctf = some (Json.arr [])) :
    generate_content_result resp = Except.ok (Json.str resp.text) ∧
    (resp.text ≠ "No response generated" →
      generate_content_result resp ≠ Except.ok (Json.str "No response generated")) := by
  have hmain : generate_content_result resp = Except.ok (Json.str resp.text) := by
    rcases hcase with hc | ⟨c0f, rest, ctf, hc, hct, hp⟩
    · simp [generate_content_result, h200, hj, extract_response_text, dict_get, index0, hc]
    · simp [generate_content_result, h200, hj, extract_response_text, dict_get, index0,
        hc, hct, hp]
  refine ⟨hmain, fun hne hfall => ?_⟩
  rw [hmain] at hfall
  simp at hfall
  exact hne hfall

/-- C9 witness: the 200 response with body mapping candidates to the
empty array returns the raw body RAWBODY, not the fallback. -/
theorem c9_empty_list_returns_raw_body_witness :
    generate_content_result
      ⟨200, "RAWBODY", some (Json.obj [("candidates", Json.arr [])])⟩
      = Except.ok (Json.str "RAWBODY") ∧
    generate_content_result
      ⟨200, "RAWBODY", some (Json.obj [("candidates", Json.arr [])])⟩
      ≠ Except.ok (Json.str "No response generated") := by
  have h := c9_empty_list_returns_raw_body
    ⟨200, "RAWBODY", some (Json.obj [("candidates", Json.arr [])])⟩
    [("candidates", Json.arr [])] rfl rfl (Or.inl (by simp))
  exact ⟨h.1, h.2 (by decide)⟩

/-- C10: when the quiz-mode response text parses to a JSON object lacking
a questions key, quiz parsing yields an empty list and reports no parse
error; and whenever the error path is taken at all, the quiz degrades to
an empty list, so no exception escapes the parsing step. -/
theorem c10_quiz_missing_questions (loads : Option Json) :
    (∀ fs, loads = some (Json.obj fs) → List.lookup "questions" fs = none →
      parse_quiz_response loads = (Json.arr [], false)) ∧
    ((parse_quiz_response loads).2 = true → (parse_quiz_response loads).1 = Json.arr []) := by
  constructor
  · intro fs hfs hq
    subst hfs
    simp [parse_quiz_response, hq]
  · intro herr
    match loads with
    | none => rfl
    | some (Json.obj fs) => simp [parse_quiz_response] at herr
    | some Json.null => rfl
    | some (Json.bool b) => rfl
    | some (Json.num q) => rfl
    | some (Json.str s) => rfl
    | some (Json.arr items) => rfl

/-- C10 witness: a valid JSON object without a questions key yields the
empty quiz with no reported parse error. -/
theorem c10_quiz_missing_questions_witness :
    parse_quiz_response (some (Json.obj [("other", Json.num 1)]))
      = (Json.arr [], false) :=
  (c10_quiz_missing_questions _).1 [("other", Json.num 1)] rfl (by simp)
